import Mathlib

/-!
Verification development for the client data entry application
(`src/client_data_app.py`).  The definitions below are a shallow embedding
of the core logic of the application: reference-data fetching (`get_all_data`),
prefill lookup (`get_prefill_data` / `parse_comma_string`), volume
resolution with the range-to-midpoint table, the per-field change
detector (`has_changed`) and the submission payload construction that the
`main` function performs after validation.

Modelling conventions:
* Database cells that may be NULL (pandas `NaN`) are `Option` values;
  text cells are `Option String`, the numeric volume cells are
  `Option Int` (the store holds integer lot counts; the conversion
  `int(float(...))` is the identity on them).
* Python values flowing through the generic `has_changed` helper are
  embedded in the inductive `Val` (None / str / int / list), mirroring the
  dynamic typing of the original: `None` and `""` are distinct values
  that the helper itself normalises.
* Streamlit widgets returning "no selection" are modelled as `none`;
  text inputs always return a `String` (possibly `""`), multiselects a
  `List String`, exactly as in the source.
-/

namespace ClientDataApp

/-- A row of the `ALL_FIRM_NAMES` query in `get_all_data`: the three
role columns, each possibly NULL. -/
structure FirmRow where
  broker : Option String
  clearer : Option String
  customer : Option String
deriving DecidableEq, Repr

/-- A row of the `STREAMLIT_APP_VIEW` query (the columns `get_all_data`
selects into `clients_df`; the `recent` query adds only a display-time
`ENTRY_DATE` column, irrelevant to the logic modelled here). -/
structure ClientRow where
  company : Option String
  client_type : Option String
  client_status : Option String
  sensitivities : Option String
  barriers : Option String
  decision_makers : Option String
  eua_volume : Option Int
  go_volume : Option Int
  other_product_notes : Option String
  access_type : Option String
  front_end : Option String
  front_end_details : Option String
  clearers : Option String
  brokers : Option String
  etrm : Option String
  source : Option String
  notes : Option String
deriving DecidableEq, Repr

/-- Result of `get_all_data`: the five containers plus whether a failure
was surfaced to the user (`st.error` in the source; for a failed
connection the report happens inside `get_snowflake_connection`). -/
structure FetchResult where
  companies : List String
  brokers : List String
  clearers : List String
  clients : List ClientRow
  recent : List ClientRow
  reported : Bool
deriving DecidableEq, Repr

/-- `x if x else None` on an optional string (falsy `""` and `None`
both become `None`): the truthiness test Python applies with
`if row[0]:` in `get_all_data` and with `x if x else None` throughout
the payload construction. -/
def truthyStr : Option String → Option String
  | some "" => none
  | v => v

/-- `get_all_data` (src lines 107-180).  The connection attempt and the
three cursor executions are the effectful inputs; the body mirrors the
`try/except` control flow: containers start empty, each successful query
fills its containers (the firm-name loop appends a cell only when it is
truthy, so NULL and `""` cells are both dropped), and the first raised
exception jumps to the `except` clause which reports and falls through
to the common `return`, keeping whatever was already filled. -/
def get_all_data (conn : Option Unit)
    (qFirms : Except String (List FirmRow))
    (qClients : Except String (List ClientRow))
    (qRecent : Except String (List ClientRow)) : FetchResult :=
  match conn with
  | none => ⟨[], [], [], [], [], true⟩
  | some _ =>
    match qFirms with
    | .error _ => ⟨[], [], [], [], [], true⟩
    | .ok rows =>
      let brokers := rows.filterMap (fun r => truthyStr r.broker)
      let clearers := rows.filterMap (fun r => truthyStr r.clearer)
      let companies := rows.filterMap (fun r => truthyStr r.customer)
      match qClients with
      | .error _ => ⟨companies, brokers, clearers, [], [], true⟩
      | .ok cl =>
        match qRecent with
        | .error _ => ⟨companies, brokers, clearers, cl, [], true⟩
        | .ok rec => ⟨companies, brokers, clearers, cl, rec, false⟩

/-- The comma split used both by `parse_comma_string` and inline for the
"additional clearers/brokers" inputs: split on `","`, strip whitespace,
drop blank items. -/
def splitCommaClean (s : String) : List String :=
  ((s.splitOn ",").map String.trim).filter (fun x => x ≠ "")

/-- `parse_comma_string` (src lines 183-187): NULL or falsy (empty)
string gives `[]`, otherwise split/strip/filter. -/
def parse_comma_string (value : Option String) : List String :=
  match value with
  | none => []
  | some s => if s = "" then [] else splitCommaClean s

/-- The prefill dictionary built by `get_prefill_data` (src lines
205-221): list fields parsed from comma strings, free-text fields
defaulted to `""` on NULL, enum and numeric fields kept optional. -/
structure Prefill where
  client_status : Option String
  sensitivities : List String
  barriers : List String
  decision_makers : String
  eua_volume : Option Int
  go_volume : Option Int
  other_product_notes : String
  access_type : Option String
  front_end : List String
  front_end_details : String
  clearers : List String
  brokers : List String
  etrm : Option String
  source : Option String
  notes : String
deriving DecidableEq, Repr

/-- The transformation `get_prefill_data` applies to the matched row
(the dict literal at src lines 205-221). -/
def toPrefill (r : ClientRow) : Prefill :=
  { client_status := r.client_status
    sensitivities := parse_comma_string r.sensitivities
    barriers := parse_comma_string r.barriers
    decision_makers := r.decision_makers.getD ""
    eua_volume := r.eua_volume
    go_volume := r.go_volume
    other_product_notes := r.other_product_notes.getD ""
    access_type := r.access_type
    front_end := parse_comma_string r.front_end
    front_end_details := r.front_end_details.getD ""
    clearers := parse_comma_string r.clearers
    brokers := parse_comma_string r.brokers
    etrm := r.etrm
    source := r.source
    notes := r.notes.getD "" }

/-- Python truthiness test for an optional string (`not value`):
true for `None` and for `""`. -/
def pyFalsy (v : Option String) : Bool :=
  v == none || v == some ""

/-- `get_prefill_data` (src lines 190-221): empty result when the table
is empty or either key is falsy; otherwise the first row matching both
keys exactly (pandas boolean mask then `.iloc[0]`), transformed. -/
def get_prefill_data (df : List ClientRow) (company clientType : Option String) :
    Option Prefill :=
  if df.isEmpty || pyFalsy company || pyFalsy clientType then none
  else
    match df.find? (fun r => r.company == company && r.client_type == clientType) with
    | none => none
    | some row => some (toPrefill row)

/-- The `range_midpoints` dict (src lines 680-688) accessed with `.get`:
unknown labels give `None`. -/
def range_midpoints (s : String) : Option Int :=
  if s = "<2.5k" then some 1250
  else if s = "2.5-5k" then some 3750
  else if s = "5-10k" then some 7500
  else if s = "10-20k" then some 15000
  else if s = "20-50k" then some 35000
  else if s = "50k+" then some 50000
  else if s = "20k+" then some 20000
  else none

/-- Volume processing (src lines 690-706, identical for EUA and GO):
a present, strictly positive exact value wins; otherwise a selected
range label is resolved through `range_midpoints`; otherwise `None`. -/
def resolve_volume (exact : Option Int) (rng : Option String) : Option Int :=
  match exact with
  | some e =>
    if e > 0 then some e
    else
      match rng with
      | some r => range_midpoints r
      | none => none
  | none =>
    match rng with
    | some r => range_midpoints r
    | none => none

/-- A dynamically-typed Python value as it flows through `has_changed`:
`None`, a string, an int, or a list of strings. -/
inductive Val where
  | vnone : Val
  | vstr : String → Val
  | vint : Int → Val
  | vlist : List String → Val
deriving DecidableEq, Repr

/-- Embed an optional string widget value. -/
def optStrVal : Option String → Val
  | none => .vnone
  | some s => .vstr s

/-- Embed an optional int value. -/
def optIntVal : Option Int → Val
  | none => .vnone
  | some n => .vint n

/-- The scalar normalisation inside `has_changed` (src lines 725-729):
`""` and `None` collapse to `None`; everything else is untouched. -/
def normVal : Val → Val
  | .vstr "" => .vnone
  | .vnone => .vnone
  | v => v

/-- The list coercion inside `has_changed` (src line 721):
`prefill_value if prefill_value else []` — a falsy value becomes `[]`,
a list is kept.  List fields of the prefill are always lists, so the
non-list truthy case is unreachable and maps to `[]` here too. -/
def toListVal : Val → List String
  | .vlist l => l
  | _ => []

/-- `prefill.get(field_name)` on the dict of `get_prefill_data`
(missing keys give `None`, as `dict.get` does). -/
def Prefill.getField (p : Prefill) (field : String) : Val :=
  if field = "client_status" then optStrVal p.client_status
  else if field = "sensitivities" then .vlist p.sensitivities
  else if field = "barriers" then .vlist p.barriers
  else if field = "decision_makers" then .vstr p.decision_makers
  else if field = "eua_volume" then optIntVal p.eua_volume
  else if field = "go_volume" then optIntVal p.go_volume
  else if field = "other_product_notes" then .vstr p.other_product_notes
  else if field = "access_type" then optStrVal p.access_type
  else if field = "front_end" then .vlist p.front_end
  else if field = "front_end_details" then .vstr p.front_end_details
  else if field = "clearers" then .vlist p.clearers
  else if field = "brokers" then .vlist p.brokers
  else if field = "etrm" then optStrVal p.etrm
  else if field = "source" then optStrVal p.source
  else if field = "notes" then .vstr p.notes
  else .vnone

/-- `has_changed` (src lines 713-730): no prefill means everything is
new; list fields compare as Python sets (`Finset`s here); scalar fields
compare after collapsing `""`/`None`. -/
def has_changed (prefill : Option Prefill) (field : String) (newValue : Val)
    (is_list : Bool) : Bool :=
  match prefill with
  | none => true
  | some p =>
    let prefillValue := p.getField field
    if is_list then
      decide ((toListVal prefillValue).toFinset ≠ (toListVal newValue).toFinset)
    else
      decide (normVal prefillValue ≠ normVal newValue)

/-- The form state at submit time: every widget value `main` reads when
building the payload.  Selectboxes with no selection are `none`; text
inputs are plain strings; multiselects are lists. -/
structure FormState where
  company : String
  client_type : Option String
  client_status : Option String
  sensitivities : List String
  barriers : List String
  decision_makers : String
  eua_volume_range : Option String
  eua_volume_exact : Option Int
  go_volume_range : Option String
  go_volume_exact : Option Int
  other_product_notes : String
  access_type : Option String
  etrm : Option String
  front_end : List String
  front_end_details : String
  source : Option String
  notes : String
  clearers : List String
  additional_clearers : String
  brokers : List String
  additional_brokers : String
deriving DecidableEq, Repr

/-- The `data` dict handed to `insert_client_data` (src lines 733-754):
one key per database column. -/
structure Payload where
  client_status : Option String
  client_type : Option String
  company : String
  sensitivities : Option String
  barriers : Option String
  decision_makers : Option String
  overall_volume : Option Int
  eua_volume : Option Int
  go_volume : Option Int
  power_volume : Option Int
  gas_volume : Option Int
  other_product_notes : Option String
  access_type : Option String
  front_end : Option String
  front_end_details : Option String
  clearers : Option String
  brokers : Option String
  etrm : Option String
  source : Option String
  notes : Option String
deriving DecidableEq, Repr

/-- `", ".join(l) if l else None` — the multiselect-to-column encoding. -/
def joinComma (l : List String) : Option String :=
  if l.isEmpty then none else some (String.intercalate ", " l)

/-- `x if x else None` on a plain string. -/
def strOrNone (s : String) : Option String :=
  if s = "" then none else some s

/-- The payload construction of `main` after validation passes
(src lines 664-754): combine the clearer/broker selections with the
comma-separated "additional" inputs, resolve both volumes, then emit
each column through `has_changed` — unchanged fields become `None`,
`company` and `client_type` are always carried. -/
def build_submission (f : FormState) (prefill : Option Prefill) : Payload :=
  let front_end_str := joinComma f.front_end
  let all_clearers :=
    f.clearers ++ (if f.additional_clearers = "" then [] else splitCommaClean f.additional_clearers)
  let clearers_str := joinComma all_clearers
  let all_brokers :=
    f.brokers ++ (if f.additional_brokers = "" then [] else splitCommaClean f.additional_brokers)
  let brokers_str := joinComma all_brokers
  let eua_volume := resolve_volume f.eua_volume_exact f.eua_volume_range
  let go_volume := resolve_volume f.go_volume_exact f.go_volume_range
  let sensitivities_str := joinComma f.sensitivities
  let barriers_str := joinComma f.barriers
  { client_status :=
      if has_changed prefill "client_status" (optStrVal f.client_status) false
      then truthyStr f.client_status else none
    client_type := f.client_type
    company := f.company
    sensitivities :=
      if has_changed prefill "sensitivities" (.vlist f.sensitivities) true
      then sensitivities_str else none
    barriers :=
      if has_changed prefill "barriers" (.vlist f.barriers) true
      then barriers_str else none
    decision_makers :=
      if has_changed prefill "decision_makers" (.vstr f.decision_makers) false
      then strOrNone f.decision_makers else none
    overall_volume := none
    eua_volume :=
      if has_changed prefill "eua_volume" (optIntVal eua_volume) false
      then eua_volume else none
    go_volume :=
      if has_changed prefill "go_volume" (optIntVal go_volume) false
      then go_volume else none
    power_volume := none
    gas_volume := none
    other_product_notes :=
      if has_changed prefill "other_product_notes" (.vstr f.other_product_notes) false
      then strOrNone f.other_product_notes else none
    access_type :=
      if has_changed prefill "access_type" (optStrVal f.access_type) false
      then truthyStr f.access_type else none
    front_end :=
      if has_changed prefill "front_end" (.vlist f.front_end) true
      then front_end_str else none
    front_end_details :=
      if has_changed prefill "front_end_details" (.vstr f.front_end_details) false
      then strOrNone f.front_end_details else none
    clearers :=
      if has_changed prefill "clearers" (.vlist all_clearers) true
      then clearers_str else none
    brokers :=
      if has_changed prefill "brokers" (.vlist all_brokers) true
      then brokers_str else none
    etrm :=
      if has_changed prefill "etrm" (optStrVal f.etrm) false
      then truthyStr f.etrm else none
    source :=
      if has_changed prefill "source" (optStrVal f.source) false
      then truthyStr f.source else none
    notes :=
      if has_changed prefill "notes" (.vstr f.notes) false
      then strOrNone f.notes else none }

/-- Outcome of pressing Submit: blocked by one of the two validation
errors, or a payload handed to `insert_client_data`. -/
inductive SubmitResult where
  | blockedClientType : SubmitResult
  | blockedCompany : SubmitResult
  | submitted : Payload → SubmitResult
deriving DecidableEq, Repr

/-- The submit handler (src lines 657-758): `client_type` checked first,
then `company` against blank and the two placeholder options; only then
is the payload built. -/
def handle_submit (f : FormState) (prefill : Option Prefill) : SubmitResult :=
  if pyFalsy f.client_type then .blockedClientType
  else if f.company = "" ∨ f.company = "Select a company..."
          ∨ f.company = "-- Enter new company --" then .blockedCompany
  else .submitted (build_submission f prefill)

/-- C5: the static range-to-midpoint table maps exactly the seven labels
`<2.5k`, `2.5-5k`, `5-10k`, `10-20k`, `20-50k`, `50k+`, `20k+` to
1250, 3750, 7500, 15000, 35000, 50000, 20000 respectively, and no other
label has an entry. -/
theorem range_midpoints_exact (s : String) (v : Int) :
    range_midpoints s = some v ↔
      (s = "<2.5k" ∧ v = 1250) ∨ (s = "2.5-5k" ∧ v = 3750) ∨
      (s = "5-10k" ∧ v = 7500) ∨ (s = "10-20k" ∧ v = 15000) ∨
      (s = "20-50k" ∧ v = 35000) ∨ (s = "50k+" ∧ v = 50000) ∨
      (s = "20k+" ∧ v = 20000) := by
  unfold range_midpoints
  split_ifs <;> subst_vars <;> simp_all <;> exact eq_comm

/-- C1: two-stage volume resolution.  A present, strictly positive exact
entry wins and the range label is ignored; otherwise a selected label is
resolved through the static table; otherwise the result is null.  The
three concrete cases of the spec are included: exact 150 with range
`<2.5k` gives 150, exact 0 with range `5-10k` gives 7500, and
both absent gives null. -/
theorem volume_two_stage_resolution :
    (∀ (e : Int) (rng : Option String), 0 < e →
        resolve_volume (some e) rng = some e) ∧
    (∀ (exact : Option Int) (r : String), (∀ v, exact = some v → v ≤ 0) →
        resolve_volume exact (some r) = range_midpoints r) ∧
    (∀ (exact : Option Int), (∀ v, exact = some v → v ≤ 0) →
        resolve_volume exact none = none) ∧
    resolve_volume (some 150) (some "<2.5k") = some 150 ∧
    resolve_volume (some 0) (some "5-10k") = some 7500 ∧
    resolve_volume none none = none := by
  refine ⟨?_, ?_, ?_, by decide, by decide, by decide⟩
  · intro e rng he
    simp [resolve_volume, show e > 0 from he]
  · intro exact r h
    cases exact with
    | none => simp [resolve_volume]
    | some v =>
      have hv := h v rfl
      simp [resolve_volume, show ¬ v > 0 by omega]
  · intro exact h
    cases exact with
    | none => simp [resolve_volume]
    | some v =>
      have hv := h v rfl
      simp [resolve_volume, show ¬ v > 0 by omega]

/-- C1 witness: the theorem applied at the concrete inputs of the spec. -/
theorem volume_two_stage_resolution_witness :
    resolve_volume (some 150) (some "<2.5k") = some 150 ∧
    resolve_volume (some 0) (some "5-10k") = range_midpoints "5-10k" ∧
    resolve_volume none none = none :=
  ⟨volume_two_stage_resolution.1 150 (some "<2.5k") (by decide),
   volume_two_stage_resolution.2.1 (some 0) "5-10k"
     (fun v hv => by injection hv with h; omega),
   volume_two_stage_resolution.2.2.2.2.2⟩

/-- C10: the `overall_volume`, `power_volume` and `gas_volume` columns
are hard-coded to null in every payload, whatever the form state and
prefill. -/
theorem fixed_null_volume_fields (f : FormState) (prefill : Option Prefill) :
    (build_submission f prefill).overall_volume = none ∧
    (build_submission f prefill).power_volume = none ∧
    (build_submission f prefill).gas_volume = none :=
  ⟨rfl, rfl, rfl⟩

/-- C2: with no prefill (brand-new (company, client_type) key) every
scalar column is present in the payload and carries the form value,
null exactly when the form value is blank (`truthyStr` / `strOrNone`
are the `x if x else None` idiom of the source on optional and plain strings, the
volumes carry the resolved values).  The payload record always contains
every column, so each field is present, never omitted. -/
theorem new_entity_full_payload (f : FormState) :
    (build_submission f none).client_status = truthyStr f.client_status ∧
    (build_submission f none).decision_makers = strOrNone f.decision_makers ∧
    (build_submission f none).eua_volume
      = resolve_volume f.eua_volume_exact f.eua_volume_range ∧
    (build_submission f none).go_volume
      = resolve_volume f.go_volume_exact f.go_volume_range ∧
    (build_submission f none).other_product_notes = strOrNone f.other_product_notes ∧
    (build_submission f none).access_type = truthyStr f.access_type ∧
    (build_submission f none).front_end_details = strOrNone f.front_end_details ∧
    (build_submission f none).etrm = truthyStr f.etrm ∧
    (build_submission f none).source = truthyStr f.source ∧
    (build_submission f none).notes = strOrNone f.notes ∧
    (build_submission f none).company = f.company ∧
    (build_submission f none).client_type = f.client_type := by
  simp [build_submission, has_changed]

/-- C3: for every scalar column, when a prefill exists and the form
value equals the prefill value after normalisation (empty string and
absent collapse to the single null representative `Val.vnone`), the
payload carries explicit null for that column; the key of the column is
still present because the payload record declares every column. -/
theorem unchanged_scalar_explicit_null (f : FormState) (p : Prefill) :
    (normVal (optStrVal f.client_status) = normVal (optStrVal p.client_status) →
        (build_submission f (some p)).client_status = none) ∧
    (normVal (.vstr f.decision_makers) = normVal (.vstr p.decision_makers) →
        (build_submission f (some p)).decision_makers = none) ∧
    (normVal (optIntVal (resolve_volume f.eua_volume_exact f.eua_volume_range))
        = normVal (optIntVal p.eua_volume) →
        (build_submission f (some p)).eua_volume = none) ∧
    (normVal (optIntVal (resolve_volume f.go_volume_exact f.go_volume_range))
        = normVal (optIntVal p.go_volume) →
        (build_submission f (some p)).go_volume = none) ∧
    (normVal (.vstr f.other_product_notes) = normVal (.vstr p.other_product_notes) →
        (build_submission f (some p)).other_product_notes = none) ∧
    (normVal (optStrVal f.access_type) = normVal (optStrVal p.access_type) →
        (build_submission f (some p)).access_type = none) ∧
    (normVal (.vstr f.front_end_details) = normVal (.vstr p.front_end_details) →
        (build_submission f (some p)).front_end_details = none) ∧
    (normVal (optStrVal f.etrm) = normVal (optStrVal p.etrm) →
        (build_submission f (some p)).etrm = none) ∧
    (normVal (optStrVal f.source) = normVal (optStrVal p.source) →
        (build_submission f (some p)).source = none) ∧
    (normVal (.vstr f.notes) = normVal (.vstr p.notes) →
        (build_submission f (some p)).notes = none) := by
  refine ⟨?_, ?_, ?_, ?_, ?_, ?_, ?_, ?_, ?_, ?_⟩ <;>
    intro h <;> simp [build_submission, has_changed, Prefill.getField, h]

/-- A sample form state used by witnesses: blank form with matching
prefill fields where needed. -/
def sampleForm : FormState :=
  { company := "Acme Corp"
    client_type := some "Customer"
    client_status := some "Client"
    sensitivities := ["Margin"]
    barriers := []
    decision_makers := ""
    eua_volume_range := none
    eua_volume_exact := some 1250
    go_volume_range := none
    go_volume_exact := none
    other_product_notes := ""
    access_type := none
    etrm := none
    front_end := []
    front_end_details := ""
    source := some "Meeting"
    notes := ""
    clearers := ["ClearCo"]
    additional_clearers := ""
    brokers := []
    additional_brokers := "" }

/-- A sample prefill matching `sampleForm` on every scalar field after
normalisation. -/
def samplePrefill : Prefill :=
  { client_status := some "Client"
    sensitivities := ["Margin"]
    barriers := []
    decision_makers := ""
    eua_volume := some 1250
    go_volume := none
    other_product_notes := ""
    access_type := none
    front_end := []
    front_end_details := ""
    clearers := ["ClearCo"]
    brokers := []
    etrm := none
    source := some "Meeting"
    notes := "" }

/-- C3 witness: at the sample form and prefill every scalar hypothesis
holds and every scalar column of the payload is null. -/
theorem unchanged_scalar_explicit_null_witness :
    (build_submission sampleForm (some samplePrefill)).client_status = none ∧
    (build_submission sampleForm (some samplePrefill)).decision_makers = none ∧
    (build_submission sampleForm (some samplePrefill)).eua_volume = none ∧
    (build_submission sampleForm (some samplePrefill)).go_volume = none ∧
    (build_submission sampleForm (some samplePrefill)).other_product_notes = none ∧
    (build_submission sampleForm (some samplePrefill)).access_type = none ∧
    (build_submission sampleForm (some samplePrefill)).front_end_details = none ∧
    (build_submission sampleForm (some samplePrefill)).etrm = none ∧
    (build_submission sampleForm (some samplePrefill)).source = none ∧
    (build_submission sampleForm (some samplePrefill)).notes = none :=
  have h := unchanged_scalar_explicit_null sampleForm samplePrefill
  ⟨h.1 (by decide), h.2.1 (by decide), h.2.2.1 (by decide),
   h.2.2.2.1 (by decide), h.2.2.2.2.1 (by decide), h.2.2.2.2.2.1 (by decide),
   h.2.2.2.2.2.2.1 (by decide), h.2.2.2.2.2.2.2.1 (by decide),
   h.2.2.2.2.2.2.2.2.1 (by decide), h.2.2.2.2.2.2.2.2.2 (by decide)⟩

/-- C4: change detection for the five set-valued columns depends only
on the underlying sets of the prefill list and the new list: replacing
either list by any list with the same elements (so any permutation or
duplication) leaves the detected outcome unchanged. -/
theorem set_fields_set_semantics (p : Prefill)
    (oldv oldw newv neww : List String)
    (hOld : oldv.toFinset = oldw.toFinset) (hNew : newv.toFinset = neww.toFinset) :
    (has_changed (some { p with sensitivities := oldv }) "sensitivities" (.vlist newv) true
      = has_changed (some { p with sensitivities := oldw }) "sensitivities" (.vlist neww) true) ∧
    (has_changed (some { p with barriers := oldv }) "barriers" (.vlist newv) true
      = has_changed (some { p with barriers := oldw }) "barriers" (.vlist neww) true) ∧
    (has_changed (some { p with front_end := oldv }) "front_end" (.vlist newv) true
      = has_changed (some { p with front_end := oldw }) "front_end" (.vlist neww) true) ∧
    (has_changed (some { p with clearers := oldv }) "clearers" (.vlist newv) true
      = has_changed (some { p with clearers := oldw }) "clearers" (.vlist neww) true) ∧
    (has_changed (some { p with brokers := oldv }) "brokers" (.vlist newv) true
      = has_changed (some { p with brokers := oldw }) "brokers" (.vlist neww) true) := by
  refine ⟨?_, ?_, ?_, ?_, ?_⟩ <;>
    simp [has_changed, Prefill.getField, toListVal, hOld, hNew]

/-- C4 witness: permuting and duplicating `["Fees", "Margin"]` on both
sides leaves the outcome identical (here: unchanged on both sides). -/
theorem set_fields_set_semantics_witness :
    (has_changed (some { samplePrefill with barriers := ["Fees", "Margin"] })
        "barriers" (.vlist ["Fees", "Margin"]) true
      = has_changed (some { samplePrefill with barriers := ["Margin", "Fees", "Fees"] })
        "barriers" (.vlist ["Margin", "Margin", "Fees"]) true) ∧
    (["Fees", "Margin"] : List String).toFinset
      = (["Margin", "Fees", "Fees"] : List String).toFinset :=
  ⟨(set_fields_set_semantics samplePrefill
      ["Fees", "Margin"] ["Margin", "Fees", "Fees"]
      ["Fees", "Margin"] ["Margin", "Margin", "Fees"]
      (by decide) (by decide)).2.1,
   by decide⟩

/-- C6: `company` and `client_type` are carried verbatim into every
payload whatever the change status, and validation blocks submission —
the payload is never built — when `client_type` is unset or `company`
is blank or one of the two placeholder entries. -/
theorem keys_always_saved_and_validated (f : FormState) (prefill : Option Prefill) :
    ((build_submission f prefill).company = f.company ∧
     (build_submission f prefill).client_type = f.client_type) ∧
    (f.client_type = none ∨ f.client_type = some "" →
        handle_submit f prefill = .blockedClientType) ∧
    (f.client_type ≠ none → f.client_type ≠ some "" →
      f.company = "" ∨ f.company = "Select a company..."
        ∨ f.company = "-- Enter new company --" →
        handle_submit f prefill = .blockedCompany) ∧
    (∀ pl, handle_submit f prefill = .submitted pl →
        pl.company = f.company ∧ pl.client_type = f.client_type) := by
  refine ⟨⟨rfl, rfl⟩, ?_, ?_, ?_⟩
  · intro h
    have : pyFalsy f.client_type = true := by
      rcases h with h | h <;> simp [pyFalsy, h]
    simp [handle_submit, this]
  · intro h1 h2 h3
    have : pyFalsy f.client_type = false := by
      cases hft : f.client_type with
      | none => exact absurd hft h1
      | some s =>
        rw [hft] at h2
        simp only [pyFalsy, Bool.or_eq_false_iff]
        refine ⟨rfl, ?_⟩
        simp only [beq_eq_false_iff_ne, ne_eq, Option.some.injEq]
        intro hs
        exact h2 (by rw [hs])
    simp [handle_submit, this, h3]
  · intro pl h
    unfold handle_submit at h
    split_ifs at h
    all_goals cases h
    all_goals exact ⟨rfl, rfl⟩

/-- C6 witness: the theorem applied at the sample form (valid keys) and
at two invalid variants. -/
theorem keys_always_saved_and_validated_witness :
    ((build_submission sampleForm (some samplePrefill)).company = "Acme Corp" ∧
     (build_submission sampleForm (some samplePrefill)).client_type = some "Customer") ∧
    handle_submit { sampleForm with client_type := none } (some samplePrefill)
      = .blockedClientType ∧
    handle_submit { sampleForm with company := "Select a company..." } (some samplePrefill)
      = .blockedCompany :=
  ⟨(keys_always_saved_and_validated sampleForm (some samplePrefill)).1,
   (keys_always_saved_and_validated { sampleForm with client_type := none }
      (some samplePrefill)).2.1 (Or.inl rfl),
   (keys_always_saved_and_validated { sampleForm with company := "Select a company..." }
      (some samplePrefill)).2.2.1 (by decide) (by decide) (Or.inr (Or.inl rfl))⟩

/-- C7 counterexample: a retrieval failure in the client-view query
after the firm-names query succeeded.  The failure is surfaced
(`reported = true`) yet the brokers container is not empty — the
already-filled firm lists survive the `except` clause, so the fetch does
not return empty containers for all five outputs on this failure. -/
theorem get_all_data_kept_containers_cex :
    (get_all_data (some ()) (.ok [⟨some "BrokerA", none, some "AcmeCorp"⟩])
        (.error "query failed") (.error "query failed")).reported = true ∧
    (get_all_data (some ()) (.ok [⟨some "BrokerA", none, some "AcmeCorp"⟩])
        (.error "query failed") (.error "query failed")).brokers = ["BrokerA"] :=
  ⟨rfl, rfl⟩

/-- C7 amended: if the connection or the first (firm-names) query fails,
all five outputs are empty; if a later query fails, the containers
already filled by completed queries are kept and the remaining ones are
empty; and a failure is surfaced exactly when not every stage succeeded.
`get_all_data` is a total function of its inputs: every path returns a
well-typed `FetchResult`, never an exception. -/
theorem get_all_data_failure_containment (conn : Option Unit)
    (qF : Except String (List FirmRow)) (qC qR : Except String (List ClientRow)) :
    (conn = none → get_all_data conn qF qC qR = ⟨[], [], [], [], [], true⟩) ∧
    (∀ e, qF = .error e → get_all_data (some ()) qF qC qR = ⟨[], [], [], [], [], true⟩) ∧
    (∀ rows e, qF = .ok rows → qC = .error e →
        get_all_data (some ()) qF qC qR =
          ⟨rows.filterMap (fun r => truthyStr r.customer),
           rows.filterMap (fun r => truthyStr r.broker),
           rows.filterMap (fun r => truthyStr r.clearer), [], [], true⟩) ∧
    (∀ rows cl e, qF = .ok rows → qC = .ok cl → qR = .error e →
        get_all_data (some ()) qF qC qR =
          ⟨rows.filterMap (fun r => truthyStr r.customer),
           rows.filterMap (fun r => truthyStr r.broker),
           rows.filterMap (fun r => truthyStr r.clearer), cl, [], true⟩) ∧
    ((get_all_data conn qF qC qR).reported = false ↔
        ∃ u rows cl rec, conn = some u ∧ qF = .ok rows ∧ qC = .ok cl ∧ qR = .ok rec) := by
  refine ⟨?_, ?_, ?_, ?_, ?_⟩
  · intro h
    subst h
    rfl
  · intro e h
    subst h
    rfl
  · intro rows e hF hC
    subst hF
    subst hC
    rfl
  · intro rows cl e hF hC hR
    subst hF
    subst hC
    subst hR
    rfl
  · cases conn <;> cases qF <;> cases qC <;> cases qR <;>
      simp [get_all_data]

/-- C7 amended witness: the theorem applied at a concrete mid-sequence
failure (clients query fails after the firm query succeeded).  The firm
row carries a NULL broker and an empty-string customer, both dropped by
the truthiness test, so only the clearer survives in the kept
containers. -/
theorem get_all_data_failure_containment_witness :
    get_all_data (some ()) (.ok [⟨none, some "ClearCo", some ""⟩])
        (.error "down") (.ok []) =
      ⟨[], [], ["ClearCo"], [], [], true⟩ :=
  (get_all_data_failure_containment (some ())
      (.ok [⟨none, some "ClearCo", some ""⟩]) (.error "down") (.ok [])).2.2.1
    [⟨none, some "ClearCo", some ""⟩] "down" rfl rfl

/-- C8: the prefill lookup returns no prefill when either key is unset
or blank, when the table is empty, or when no row matches both keys by
exact equality; and when matches exist it deterministically returns the
transformed field values of the first matching row in table order. -/
theorem prefill_lookup_spec :
    (∀ (df : List ClientRow) (co ct : Option String),
        pyFalsy co = true → get_prefill_data df co ct = none) ∧
    (∀ (df : List ClientRow) (co ct : Option String),
        pyFalsy ct = true → get_prefill_data df co ct = none) ∧
    (∀ (co ct : Option String), get_prefill_data [] co ct = none) ∧
    (∀ (df : List ClientRow) (c t : String),
        (∀ r ∈ df, ¬ (r.company = some c ∧ r.client_type = some t)) →
        get_prefill_data df (some c) (some t) = none) ∧
    (∀ (pre post : List ClientRow) (r : ClientRow) (c t : String),
        c ≠ "" → t ≠ "" →
        r.company = some c → r.client_type = some t →
        (∀ r' ∈ pre, ¬ (r'.company = some c ∧ r'.client_type = some t)) →
        get_prefill_data (pre ++ r :: post) (some c) (some t)
          = some (toPrefill r)) := by
  refine ⟨?_, ?_, ?_, ?_, ?_⟩
  · intro df co ct h
    simp [get_prefill_data, h]
  · intro df co ct h
    simp [get_prefill_data, h]
  · intro co ct
    simp [get_prefill_data]
  · intro df c t h
    unfold get_prefill_data
    split_ifs with hcond
    · rfl
    · have : df.find? (fun r => r.company == some c && r.client_type == some t)
          = none := by
        rw [List.find?_eq_none]
        intro r hr
        simp only [Bool.and_eq_true, beq_iff_eq]
        intro hand
        exact h r hr hand
      rw [this]
  · intro pre post r c t hc ht hrc hrt hpre
    unfold get_prefill_data
    have hfalsy : pyFalsy (some c) = false ∧ pyFalsy (some t) = false := by
      constructor <;> simp [pyFalsy, hc, ht]
    have hempty : (pre ++ r :: post).isEmpty = false := by
      simp
    rw [hempty, hfalsy.1, hfalsy.2]
    simp only [Bool.false_or, Bool.or_false, if_neg Bool.false_ne_true]
    have hpre' : pre.find? (fun r' => r'.company == some c && r'.client_type == some t)
        = none := by
      rw [List.find?_eq_none]
      intro r' hr'
      simp only [Bool.and_eq_true, beq_iff_eq]
      intro hand
      exact hpre r' hr' hand
    have hr : (r.company == some c && r.client_type == some t) = true := by
      simp [hrc, hrt]
    have hfind :
        (r :: post).find? (fun r' => r'.company == some c && r'.client_type == some t)
          = some r :=
      List.find?_cons_of_pos _ hr
    rw [List.find?_append, hpre', Option.none_or, hfind]

/-- A concrete history row for the C8/C9 witnesses. -/
def sampleRow : ClientRow :=
  { company := some "Acme Corp"
    client_type := some "Customer"
    client_status := some "Client"
    sensitivities := some "Margin, Fees"
    barriers := some ""
    decision_makers := none
    eua_volume := some 1250
    go_volume := none
    other_product_notes := none
    access_type := some "NCM"
    front_end := some "TT, Trayport"
    front_end_details := none
    clearers := some "ClearCo"
    brokers := none
    etrm := none
    source := some "Meeting"
    notes := none }

/-- A distractor row that does not match (Acme Corp, Customer). -/
def otherRow : ClientRow :=
  { sampleRow with company := some "Other Ltd", client_type := some "Broker" }

/-- C8 witness: the theorem applied at concrete keys and a concrete
two-row table whose first matching row is `sampleRow`. -/
theorem prefill_lookup_spec_witness :
    get_prefill_data [otherRow] (some "Acme Corp") (some "Customer") = none ∧
    get_prefill_data [] (some "Acme Corp") (some "Customer") = none ∧
    get_prefill_data [otherRow, sampleRow] none (some "Customer") = none ∧
    get_prefill_data [otherRow, sampleRow] (some "Acme Corp") (some "Customer")
      = some (toPrefill sampleRow) :=
  ⟨prefill_lookup_spec.2.2.2.1 [otherRow] "Acme Corp" "Customer" (by decide),
   prefill_lookup_spec.2.2.1 (some "Acme Corp") (some "Customer"),
   prefill_lookup_spec.1 [otherRow, sampleRow] none (some "Customer") (by decide),
   prefill_lookup_spec.2.2.2.2 [otherRow] [] sampleRow "Acme Corp" "Customer"
     (by decide) (by decide) rfl rfl (by decide)⟩

/-- C9: the prefill transformation — multi-valued columns become element
sequences (split on commas, trimmed, blank items dropped; a blank or
NULL cell becomes the empty sequence, the absent value for a set-valued
field), the numeric volume cells pass through as numbers (present
exactly when the stored cell holds one), and a concrete split example. -/
theorem prefill_transformation :
    (∀ r : ClientRow,
        (toPrefill r).sensitivities = parse_comma_string r.sensitivities ∧
        (toPrefill r).barriers = parse_comma_string r.barriers ∧
        (toPrefill r).front_end = parse_comma_string r.front_end ∧
        (toPrefill r).clearers = parse_comma_string r.clearers ∧
        (toPrefill r).brokers = parse_comma_string r.brokers ∧
        (toPrefill r).eua_volume = r.eua_volume ∧
        (toPrefill r).go_volume = r.go_volume) ∧
    (∀ s : String, parse_comma_string (some s)
        = ((s.splitOn ",").map String.trim).filter (fun x => x ≠ "")) ∧
    parse_comma_string (some "") = [] ∧
    parse_comma_string none = [] ∧
    parse_comma_string (some "Margin, Fees") = ["Margin", "Fees"] ∧
    parse_comma_string (some " TT ,, Trayport ") = ["TT", "Trayport"] := by
  refine ⟨?_, ?_, by decide, rfl, ?_, ?_⟩
  · intro r
    exact ⟨rfl, rfl, rfl, rfl, rfl, rfl, rfl⟩
  · intro s
    show (if s = "" then [] else splitCommaClean s)
      = ((s.splitOn ",").map String.trim).filter (fun x => x ≠ "")
    split_ifs with h
    · subst h
      simp +decide [String.splitOn, String.splitOnAux, String.trim,
        Substring.trim, Substring.trimLeft, Substring.trimRight,
        Substring.takeWhileAux, Substring.takeRightWhileAux,
        Substring.toString, String.toSubstring]
    · rfl
  · show (if ("Margin, Fees" : String) = "" then []
        else splitCommaClean "Margin, Fees") = ["Margin", "Fees"]
    simp +decide [splitCommaClean, String.splitOn, String.splitOnAux, String.trim,
      Substring.trim, Substring.trimLeft, Substring.trimRight,
      Substring.takeWhileAux, Substring.takeRightWhileAux,
      Substring.toString, String.toSubstring]
  · show (if (" TT ,, Trayport " : String) = "" then []
        else splitCommaClean " TT ,, Trayport ") = ["TT", "Trayport"]
    simp +decide [splitCommaClean, String.splitOn, String.splitOnAux, String.trim,
      Substring.trim, Substring.trimLeft, Substring.trimRight,
      Substring.takeWhileAux, Substring.takeRightWhileAux,
      Substring.toString, String.toSubstring]

end ClientDataApp
